import Mathlib

/-!
Verification of the resilient external-write adapter of the
telegram-audio-transcript-whisper repository.

The development shallowly embeds two pieces of the repository:

* the retry/backoff save loop of src/adapters/api_adapter.py
  (class ApiAdapter: _format_message_id, _is_retryable_error, save_note);
* the offline memory cache and availability monitor of src/sleep_bot.py
  (class BotMemoryCache: add_pending_entry, get_combined_history;
   class TelegramBot: check_backend_health, sync_pending_entries).

Network behaviour is abstracted as a script: a function from the 0-based
attempt index to the outcome the HTTP layer produces on that attempt.
Every definition is executable and follows the Python control flow
statement by statement.
-/

namespace ApiAdapterModel

/-- Kinds of httpx timeout exceptions caught by save_note at line 150
(ReadTimeout, ConnectTimeout, WriteTimeout). -/
inductive TimeoutKind where
  | read
  | connect
  | write
deriving DecidableEq, Repr

/-- What a single HTTP attempt inside ApiAdapter.save_note produces.
The constructor ok models a 2xx response (raise_for_status does not
raise) whose parsed JSON body may or may not contain the fields
"status" and "note_id"; statusError models raise_for_status raising
httpx.HTTPStatusError with the given status code; timeout the three
httpx timeout exception classes; requestError httpx.RequestError;
otherError any other exception raised during the attempt. -/
inductive AttemptResult where
  | ok (hasStatus : Bool) (hasNoteId : Bool) (status : String) (noteId : String)
  | statusError (code : Nat)
  | timeout (kind : TimeoutKind)
  | requestError (msg : String)
  | otherError
deriving DecidableEq, Repr

/-- The exception save_note lets escape to its caller.
apiFailed c models raise Exception of the text API request failed: c
(lines 137 and 148); apiTimeout the text API request timeout (line 162);
apiRequestError the text API request error (line 177); invalidResponse
the ValueError of line 121 re-raised by the generic handler at line 182;
unexpected any other exception re-raised at line 182; exhaustedFallback
the guarded raise at line 188 after the loop. -/
inductive RaisedError where
  | apiFailed (code : Nat)
  | apiTimeout (kind : TimeoutKind)
  | apiRequestError (msg : String)
  | invalidResponse
  | unexpected
  | exhaustedFallback
deriving DecidableEq, Repr

/-- How a call of save_note terminates: a returned result dictionary
(its status, note_id and message_id fields), a raised exception, or the
implicit return None reached when the loop body never runs and
last_error is None. -/
inductive SaveOutcome where
  | success (status : String) (noteId : String) (messageId : String)
  | raised (e : RaisedError)
  | noneReturn
deriving DecidableEq, Repr

/-- Observable trace of one save_note call: how many HTTP attempts were
made, the backoff sleeps executed in order, and the final outcome. -/
structure SaveRun where
  attempts : Nat
  waits : List ℚ
  outcome : SaveOutcome
deriving DecidableEq, Repr

/-- Embedding of ApiAdapter._format_message_id (api_adapter.py lines
51-58): a composite identifier chat_id underscore message_id when a
chat id is present, the bare message id otherwise. -/
def format_message_id (messageId : String) (chatId : Option Int) : String :=
  match chatId with
  | some c => toString c ++ "_" ++ messageId
  | none => messageId

/-- Embedding of ApiAdapter._is_retryable_error (api_adapter.py lines
60-77): timeouts and request errors are retryable; an HTTP status error
is retryable exactly when 500 <= code < 600; everything else is not. -/
def is_retryable_error : AttemptResult → Bool
  | .timeout _ => true
  | .requestError _ => true
  | .statusError code => decide (500 ≤ code) && decide (code < 600)
  | _ => false

/-- The retry decision save_note itself takes in its exception handlers
(api_adapter.py lines 132-182), ignoring the remaining budget: a status
error is re-raised at once when code < 500 (line 135) and otherwise
retried; timeouts and request errors are always retried; a response
validation failure or any other exception is never retried. -/
def save_note_retry_decision : AttemptResult → Bool
  | .timeout _ => true
  | .requestError _ => true
  | .statusError code => decide (500 ≤ code)
  | _ => false

/-- The exception text save_note raises when the budget is exhausted on
a given attempt outcome (lines 148, 162, 177), and the one it raises at
once for a malformed body or an unexpected exception (line 182). -/
def raise_of_error : AttemptResult → RaisedError
  | .statusError code => .apiFailed code
  | .timeout k => .apiTimeout k
  | .requestError m => .apiRequestError m
  | .ok _ _ _ _ => .invalidResponse
  | .otherError => .unexpected

/-- Embedding of the retry loop of ApiAdapter.save_note (api_adapter.py
lines 110-188). fuel is the number of loop iterations still to run
(initially max_retries), done the 0-based index of the current attempt,
waits the sleeps executed so far, lastError the Python last_error
variable. The Python guard attempt < max_retries - 1 holds exactly when
0 < fuel here, because fuel + 1 = max_retries - attempt on entry to an
iteration. The backoff sleep of lines 140, 153 and 167 is
retry_delay * 2 ^ attempt. -/
def save_note_loop (retryDelay : ℚ) (script : Nat → AttemptResult) (fmtId : String) :
    Nat → Nat → List ℚ → Option AttemptResult → SaveRun
  | 0, done, waits, lastError =>
      { attempts := done, waits := waits,
        outcome := match lastError with
                   | some _ => .raised .exhaustedFallback
                   | none => .noneReturn }
  | fuel + 1, done, waits, _ =>
      match script done with
      | .ok hasStatus hasNoteId status noteId =>
          if hasStatus && hasNoteId then
            { attempts := done + 1, waits := waits,
              outcome := .success status noteId fmtId }
          else
            { attempts := done + 1, waits := waits,
              outcome := .raised .invalidResponse }
      | .statusError code =>
          if code < 500 then
            { attempts := done + 1, waits := waits,
              outcome := .raised (.apiFailed code) }
          else if 0 < fuel then
            save_note_loop retryDelay script fmtId fuel (done + 1)
              (waits ++ [retryDelay * 2 ^ done]) (some (.statusError code))
          else
            { attempts := done + 1, waits := waits,
              outcome := .raised (.apiFailed code) }
      | .timeout k =>
          if 0 < fuel then
            save_note_loop retryDelay script fmtId fuel (done + 1)
              (waits ++ [retryDelay * 2 ^ done]) (some (.timeout k))
          else
            { attempts := done + 1, waits := waits,
              outcome := .raised (.apiTimeout k) }
      | .requestError m =>
          if 0 < fuel then
            save_note_loop retryDelay script fmtId fuel (done + 1)
              (waits ++ [retryDelay * 2 ^ done]) (some (.requestError m))
          else
            { attempts := done + 1, waits := waits,
              outcome := .raised (.apiRequestError m) }
      | .otherError =>
          { attempts := done + 1, waits := waits,
            outcome := .raised .unexpected }

/-- Embedding of ApiAdapter.save_note (api_adapter.py lines 79-188).
max_retries is a Python int, so it may be non-positive, in which case
range of it is empty; Int.toNat maps every non-positive value to zero
loop iterations, exactly as range does. The wire identifier placed in
the outbound payload and echoed in the result is
format_message_id messageId chatId. -/
def save_note (maxRetries : Int) (retryDelay : ℚ) (messageId : String)
    (chatId : Option Int) (script : Nat → AttemptResult) : SaveRun :=
  save_note_loop retryDelay script (format_message_id messageId chatId)
    maxRetries.toNat 0 [] none

/-- The list of exponential backoff sleeps save_note executes for
retries at 0-based attempt indices start, start+1, ..., start+n-1, each
equal to retry_delay * 2 ^ index (api_adapter.py lines 140, 153, 167). -/
def backoff_waits (d : ℚ) : Nat → Nat → List ℚ
  | _, 0 => []
  | start, n + 1 => d * 2 ^ start :: backoff_waits d (start + 1) n

end ApiAdapterModel

namespace SleepBotModel

/-- A sleep check-in entry as built in sleep_bot.py lines 304-311: a
dictionary with a uuid id, an ISO-8601 timestamp string, a check-in
type, a rating, optional notes and a client tag. ISO timestamps compare
chronologically under the lexicographic string order that Python uses
on them. -/
structure Entry where
  id : String
  timestamp : String
  checkin_type : String
  rating : Int
  notes : Option String
  client : String
deriving DecidableEq, Repr

/-- The in-memory cache of sleep_bot.py lines 104-131 (class
BotMemoryCache): entries not yet persisted, the last snapshot fetched
from the backend, and the availability flag, initialised to false. -/
structure BotMemoryCache where
  pending_entries : List Entry
  last_known_entries : List Entry
  is_backend_available : Bool
deriving DecidableEq, Repr

/-- Embedding of BotMemoryCache.add_pending_entry (sleep_bot.py lines
111-114): append the entry to the pending list. -/
def add_pending_entry (s : BotMemoryCache) (e : Entry) : BotMemoryCache :=
  { s with pending_entries := s.pending_entries ++ [e] }

/-- Embedding of the drain loop of TelegramBot.sync_pending_entries
(sleep_bot.py lines 672-679): iterate over a copy of the pending list;
for each entry POST it; when the backend answers 200 (modelled by the
fixed per-entry outcome ok) remove the first occurrence of the entry
from the live list and count it as synced; on a non-200 answer or an
exception leave the live list unchanged. The first list argument is
the remaining part of the copy, the second the live list, the Nat the
synced counter. -/
def sync_pending_loop (ok : Entry → Bool) : List Entry → List Entry → Nat → List Entry × Nat
  | [], live, n => (live, n)
  | e :: rest, live, n =>
      if ok e then sync_pending_loop ok rest (live.erase e) (n + 1)
      else sync_pending_loop ok rest live n

/-- Embedding of TelegramBot.sync_pending_entries (sleep_bot.py lines
667-690): drain the pending list against the fixed per-entry backend
outcome ok, returning the surviving pending list and how many entries
were persisted during this run. -/
def sync_pending_entries (ok : Entry → Bool) (pending : List Entry) : List Entry × Nat :=
  sync_pending_loop ok pending pending 0

/-- Embedding of TelegramBot.check_backend_health (sleep_bot.py lines
649-665) with the probe outcome passed in. When the probe equals the
stored flag nothing happens; on a flap the flag is updated and, only
when the probe succeeded and the pending list is non-empty, one drain
of the pending list runs. The returned Nat counts the drains this step
triggered. -/
def check_backend_health (ok : Entry → Bool) (probe : Bool) (s : BotMemoryCache) :
    BotMemoryCache × Nat :=
  if probe = s.is_backend_available then (s, 0)
  else if probe && !s.pending_entries.isEmpty then
    ({ s with is_backend_available := probe,
              pending_entries := (sync_pending_entries ok s.pending_entries).1 }, 1)
  else ({ s with is_backend_available := probe }, 0)

/-- The descending-timestamp comparison used by
BotMemoryCache.get_combined_history: sorted with key timestamp and
reverse set to true places a before b exactly when the timestamp of b
is at most the timestamp of a. -/
def entry_desc (a b : Entry) : Prop := b.timestamp ≤ a.timestamp

instance : DecidableRel entry_desc :=
  fun a b => inferInstanceAs (Decidable (b.timestamp ≤ a.timestamp))

instance : IsTotal Entry entry_desc :=
  ⟨fun a b => le_total b.timestamp a.timestamp⟩

instance : IsTrans Entry entry_desc :=
  ⟨fun _ _ _ h1 h2 => le_trans h2 h1⟩

/-- Embedding of BotMemoryCache.get_combined_history (sleep_bot.py
lines 121-126): concatenate pending and last known entries, sort by
timestamp newest first, and keep the first limit elements. Python
sorted is a stable sort, and a stable sort is uniquely determined by
the key preorder, so the stable List.insertionSort under entry_desc
computes the same list. The function is pure: the two stored lists are
read, never written. -/
def get_combined_history (s : BotMemoryCache) (limit : Nat) : List Entry :=
  (List.insertionSort entry_desc (s.pending_entries ++ s.last_known_entries)).take limit

/-- A concrete entry used to instantiate witness statements. -/
def sampleEntry : Entry :=
  { id := "e1", timestamp := "2025-01-01T08:00:00", checkin_type := "morning",
    rating := 4, notes := none, client := "telegram" }

end SleepBotModel

namespace ApiAdapterModel

theorem backoff_waits_length (d : ℚ) :
    ∀ n start, (backoff_waits d start n).length = n := by
  intro n
  induction n with
  | zero => intro start; rfl
  | succ m ih => intro start; simp [backoff_waits, ih]

theorem backoff_waits_get (d : ℚ) :
    ∀ n start i (h : i < (backoff_waits d start n).length),
      (backoff_waits d start n).get ⟨i, h⟩ = d * 2 ^ (start + i) := by
  intro n
  induction n with
  | zero => intro start i h; simp [backoff_waits_length] at h
  | succ m ih =>
      intro start i h
      cases i with
      | zero => simp [backoff_waits]
      | succ j =>
          have hj : j < (backoff_waits d (start + 1) m).length := by
            simpa [backoff_waits] using h
          have := ih (start + 1) j hj
          simpa [backoff_waits, Nat.add_assoc, Nat.add_comm 1 j] using this

theorem retry_decision_of_retryable (e : AttemptResult)
    (h : is_retryable_error e = true) : save_note_retry_decision e = true := by
  cases e with
  | statusError code =>
      simp [is_retryable_error] at h
      simp [save_note_retry_decision]; omega
  | ok a b c ee => simp [is_retryable_error] at h
  | otherError => simp [is_retryable_error] at h
  | timeout k => rfl
  | requestError m => rfl

theorem save_note_loop_step_retry (d : ℚ) (s : Nat → AttemptResult) (f : String)
    (g done : Nat) (waits : List ℚ) (l : Option AttemptResult) (e : AttemptResult)
    (hs : s done = e) (hg : 0 < g) (he : save_note_retry_decision e = true) :
    save_note_loop d s f (g + 1) done waits l =
      save_note_loop d s f g (done + 1) (waits ++ [d * 2 ^ done]) (some e) := by
  cases e with
  | ok a b c ee => simp [save_note_retry_decision] at he
  | otherError => simp [save_note_retry_decision] at he
  | statusError code =>
      have h5 : ¬ code < 500 := by
        simp [save_note_retry_decision] at he; omega
      simp [save_note_loop, hs, h5, hg]
  | timeout k => simp [save_note_loop, hs, hg]
  | requestError m => simp [save_note_loop, hs, hg]

theorem save_note_loop_last_retryable (d : ℚ) (s : Nat → AttemptResult) (f : String)
    (done : Nat) (waits : List ℚ) (l : Option AttemptResult) (e : AttemptResult)
    (hs : s done = e) (he : is_retryable_error e = true) :
    save_note_loop d s f 1 done waits l =
      { attempts := done + 1, waits := waits,
        outcome := .raised (raise_of_error e) } := by
  cases e with
  | ok a b c ee => simp [is_retryable_error] at he
  | otherError => simp [is_retryable_error] at he
  | statusError code =>
      have h5 : ¬ code < 500 := by
        simp [is_retryable_error] at he; omega
      simp [save_note_loop, hs, h5, raise_of_error]
  | timeout k => simp [save_note_loop, hs, raise_of_error]
  | requestError m => simp [save_note_loop, hs, raise_of_error]

theorem save_note_loop_fatal_status (d : ℚ) (s : Nat → AttemptResult) (f : String)
    (g done : Nat) (waits : List ℚ) (l : Option AttemptResult) (c : Nat)
    (hs : s done = .statusError c) (hlt : c < 500) :
    save_note_loop d s f (g + 1) done waits l =
      { attempts := done + 1, waits := waits,
        outcome := .raised (.apiFailed c) } := by
  simp [save_note_loop, hs, hlt]

theorem save_note_loop_malformed (d : ℚ) (s : Nat → AttemptResult) (f : String)
    (g done : Nat) (waits : List ℚ) (l : Option AttemptResult)
    (a b : Bool) (st ni : String)
    (hs : s done = .ok a b st ni) (hv : (a && b) = false) :
    save_note_loop d s f (g + 1) done waits l =
      { attempts := done + 1, waits := waits,
        outcome := .raised .invalidResponse } := by
  simp [save_note_loop, hs, hv]

theorem save_note_loop_success_step (d : ℚ) (s : Nat → AttemptResult) (f : String)
    (g done : Nat) (waits : List ℚ) (l : Option AttemptResult) (st ni : String)
    (hs : s done = .ok true true st ni) :
    save_note_loop d s f (g + 1) done waits l =
      { attempts := done + 1, waits := waits,
        outcome := .success st ni f } := by
  simp [save_note_loop, hs]

theorem save_note_loop_all_retryable (d : ℚ) (s : Nat → AttemptResult) (f : String) :
    ∀ fuel done waits l,
      (∀ i, done ≤ i → i < done + (fuel + 1) → is_retryable_error (s i) = true) →
      save_note_loop d s f (fuel + 1) done waits l =
        { attempts := done + (fuel + 1),
          waits := waits ++ backoff_waits d done fuel,
          outcome := .raised (raise_of_error (s (done + fuel))) } := by
  intro fuel
  induction fuel with
  | zero =>
      intro done waits l h
      have hd : is_retryable_error (s done) = true := h done le_rfl (by omega)
      rw [save_note_loop_last_retryable d s f done waits l (s done) rfl hd]
      simp [backoff_waits]
  | succ g ih =>
      intro done waits l h
      have hd : is_retryable_error (s done) = true := h done le_rfl (by omega)
      have hnext : ∀ i, done + 1 ≤ i → i < (done + 1) + (g + 1) →
          is_retryable_error (s i) = true := by
        intro i h1 h2; exact h i (by omega) (by omega)
      rw [save_note_loop_step_retry d s f (g + 1) done waits l (s done) rfl
        (Nat.succ_pos g) (retry_decision_of_retryable _ hd)]
      rw [ih (done + 1) (waits ++ [d * 2 ^ done]) (some (s done)) hnext]
      have harith : done + 1 + (g + 1) = done + (g + 1 + 1) := by omega
      have harith2 : done + 1 + g = done + (g + 1) := by omega
      rw [harith, harith2]
      simp [backoff_waits]

theorem save_note_loop_skip (d : ℚ) (s : Nat → AttemptResult) (f : String) :
    ∀ j fuel done waits l, j < fuel →
      (∀ i, done ≤ i → i < done + j → is_retryable_error (s i) = true) →
      ∃ l2, save_note_loop d s f fuel done waits l =
        save_note_loop d s f (fuel - j) (done + j)
          (waits ++ backoff_waits d done j) l2 := by
  intro j
  induction j with
  | zero =>
      intro fuel done waits l _ _
      exact ⟨l, by simp [backoff_waits]⟩
  | succ k ih =>
      intro fuel done waits l hj h
      have hd : is_retryable_error (s done) = true := h done le_rfl (by omega)
      obtain ⟨g, rfl⟩ : ∃ g, fuel = g + 1 := ⟨fuel - 1, by omega⟩
      have hg : 0 < g := by omega
      have hnext : ∀ i, done + 1 ≤ i → i < (done + 1) + k →
          is_retryable_error (s i) = true := by
        intro i h1 h2; exact h i (by omega) (by omega)
      obtain ⟨l2, hl2⟩ := ih g (done + 1) (waits ++ [d * 2 ^ done])
        (some (s done)) (by omega) hnext
      refine ⟨l2, ?_⟩
      rw [save_note_loop_step_retry d s f g done waits l (s done) rfl hg
        (retry_decision_of_retryable _ hd)]
      rw [hl2]
      have harith : done + 1 + k = done + (k + 1) := by omega
      have harith3 : g + 1 - (k + 1) = g - k := by omega
      rw [harith, harith3]
      simp [backoff_waits]

theorem save_note_loop_success_messageId (d : ℚ) (s : Nat → AttemptResult) (f : String) :
    ∀ fuel done waits l st ni m,
      (save_note_loop d s f fuel done waits l).outcome = .success st ni m → m = f := by
  intro fuel
  induction fuel with
  | zero =>
      intro done waits l st ni m h
      cases l with
      | none => simp [save_note_loop] at h
      | some e => simp [save_note_loop] at h
  | succ g ih =>
      intro done waits l st ni m h
      cases hs : s done with
      | ok a b c e =>
          rw [save_note_loop, hs] at h
          by_cases hv : (a && b) = true
          · simp [hv, SaveOutcome.success.injEq] at h
            exact h.2.2.symm
          · simp [hv] at h
      | statusError code =>
          rw [save_note_loop, hs] at h
          by_cases h5 : code < 500
          · simp [h5] at h
          · by_cases hg : 0 < g
            · simp only [if_neg h5, if_pos hg] at h
              exact ih _ _ _ st ni m h
            · simp [h5, hg] at h
      | timeout k =>
          rw [save_note_loop, hs] at h
          by_cases hg : 0 < g
          · simp only [if_pos hg] at h
            exact ih _ _ _ st ni m h
          · simp [hg] at h
      | requestError mm =>
          rw [save_note_loop, hs] at h
          by_cases hg : 0 < g
          · simp only [if_pos hg] at h
            exact ih _ _ _ st ni m h
          · simp [hg] at h
      | otherError =>
          rw [save_note_loop, hs] at h
          simp at h

end ApiAdapterModel

namespace SleepBotModel

theorem sync_pending_loop_spec (ok : Entry → Bool) :
    ∀ rest keep n, (∀ e ∈ keep, ok e = false) →
      sync_pending_loop ok rest (keep ++ rest) n =
        (keep ++ rest.filter (fun e => !ok e), n + rest.countP ok) := by
  intro rest
  induction rest with
  | nil => intro keep n _; simp [sync_pending_loop]
  | cons e rest ih =>
      intro keep n hkeep
      by_cases he : ok e = true
      · have hnot : e ∉ keep := fun hmem => by
          have := hkeep e hmem; rw [he] at this; cases this
        have herase : (keep ++ e :: rest).erase e = keep ++ rest := by
          rw [List.erase_append_right _ hnot, List.erase_cons_head]
        rw [sync_pending_loop, if_pos he, herase, ih keep (n + 1) hkeep]
        simp [List.filter_cons, List.countP_cons, he]
        omega
      · have hkeep2 : ∀ x ∈ keep ++ [e], ok x = false := by
          intro x hx
          rcases List.mem_append.mp hx with h1 | h1
          · exact hkeep x h1
          · rw [List.mem_singleton.mp h1]
            exact eq_false_of_ne_true he
        have hsplit : keep ++ e :: rest = (keep ++ [e]) ++ rest := by simp
        rw [sync_pending_loop, if_neg he, hsplit, ih (keep ++ [e]) n hkeep2]
        have hef : ok e = false := eq_false_of_ne_true he
        simp [List.filter_cons, List.countP_cons, hef]

theorem sync_pending_entries_spec (ok : Entry → Bool) (p : List Entry) :
    sync_pending_entries ok p = (p.filter (fun e => !ok e), p.countP ok) := by
  have := sync_pending_loop_spec ok p [] 0 (by intro e h; cases h)
  simpa [sync_pending_entries] using this

end SleepBotModel

namespace ApiAdapterModel

/-- Claim C1: when every attempt raises a retryable error (timeout,
request error, or 5xx status), save_note makes exactly max_retries HTTP
attempts, the wait at 0-based retry index i (the wait before retry
number i + 1) is retry_delay * 2 ^ i, and after the last attempt it
raises an error reflecting the last underlying cause through
raise_of_error (status code, timeout kind, or request error message of
the final attempt). -/
theorem save_note_retryable_sequence_exhausts_budget
    (mr : Int) (d : ℚ) (mid : String) (cid : Option Int) (s : Nat → AttemptResult)
    (hmr : 0 < mr)
    (hret : ∀ i, i < mr.toNat → is_retryable_error (s i) = true) :
    (save_note mr d mid cid s).attempts = mr.toNat ∧
    (save_note mr d mid cid s).waits.length = mr.toNat - 1 ∧
    (∀ i (h : i < (save_note mr d mid cid s).waits.length),
        (save_note mr d mid cid s).waits.get ⟨i, h⟩ = d * 2 ^ i) ∧
    (save_note mr d mid cid s).outcome =
      .raised (raise_of_error (s (mr.toNat - 1))) := by
  have h0 : 0 < mr.toNat := by omega
  obtain ⟨g, hg⟩ : ∃ g, mr.toNat = g + 1 := ⟨mr.toNat - 1, by omega⟩
  have hall : ∀ i, 0 ≤ i → i < 0 + (g + 1) → is_retryable_error (s i) = true := by
    intro i _ h2; exact hret i (by omega)
  have hrun : save_note mr d mid cid s =
      { attempts := 0 + (g + 1),
        waits := backoff_waits d 0 g,
        outcome := .raised (raise_of_error (s (0 + g))) } := by
    rw [save_note, hg]
    exact save_note_loop_all_retryable d s _ g 0 [] none hall
  rw [hrun]
  refine ⟨by simp [hg], by simp [backoff_waits_length, hg], ?_, by simp [hg]⟩
  intro i h
  have := backoff_waits_get d g 0 i h
  simpa using this

/-- Witness for C1 at max_retries 2, delay 1, every attempt a read
timeout: two attempts, one wait, and the final error names the
timeout. -/
theorem save_note_retryable_sequence_exhausts_budget_witness :
    (save_note 2 1 "m" none (fun _ => .timeout .read)).attempts = 2 ∧
    (save_note 2 1 "m" none (fun _ => .timeout .read)).waits.length = 1 ∧
    (save_note 2 1 "m" none (fun _ => .timeout .read)).outcome =
      .raised (.apiTimeout .read) := by
  have h := save_note_retryable_sequence_exhausts_budget 2 1 "m" none
    (fun _ => .timeout .read) (by decide) (fun i _ => rfl)
  exact ⟨h.1, h.2.1, h.2.2.2⟩

/-- Claim C2: when attempts before 0-based index k raise retryable
errors and attempt k raises an HTTP status error with code below 500,
save_note stops right there: k + 1 attempts in total, only the k waits
that preceded attempt k, and an API-request-failed error carrying the
fatal code, however much retry budget is left. -/
theorem save_note_fatal_status_stops_immediately
    (mr : Int) (d : ℚ) (mid : String) (cid : Option Int) (s : Nat → AttemptResult)
    (k c : Nat) (hk : k < mr.toNat)
    (hpre : ∀ i, i < k → is_retryable_error (s i) = true)
    (hc : s k = .statusError c) (hlt : c < 500) :
    (save_note mr d mid cid s).attempts = k + 1 ∧
    (save_note mr d mid cid s).waits.length = k ∧
    (save_note mr d mid cid s).outcome = .raised (.apiFailed c) := by
  obtain ⟨l2, hl2⟩ := save_note_loop_skip d s (format_message_id mid cid)
    k mr.toNat 0 [] none hk (fun i _ h2 => hpre i (by omega))
  obtain ⟨g, hgg⟩ : ∃ g, mr.toNat - k = g + 1 := ⟨mr.toNat - k - 1, by omega⟩
  have hrun : save_note mr d mid cid s =
      { attempts := 0 + k + 1, waits := [] ++ backoff_waits d 0 k,
        outcome := .raised (.apiFailed c) } := by
    rw [save_note, hl2, hgg]
    exact save_note_loop_fatal_status d s _ g (0 + k) _ l2 c (by simpa using hc) hlt
  rw [hrun]
  exact ⟨by simp, by simp [backoff_waits_length], rfl⟩

/-- Witness for C2, the spec scenario: a 404 on the first attempt with
budget 3 fails immediately, with one attempt, zero waits, and the
fatal error carrying 404. -/
theorem save_note_fatal_status_stops_immediately_witness :
    (save_note 3 1 "m" none (fun _ => .statusError 404)).attempts = 1 ∧
    (save_note 3 1 "m" none (fun _ => .statusError 404)).waits.length = 0 ∧
    (save_note 3 1 "m" none (fun _ => .statusError 404)).outcome =
      .raised (.apiFailed 404) :=
  save_note_fatal_status_stops_immediately 3 1 "m" none (fun _ => .statusError 404)
    0 404 (by decide) (fun i h => absurd h (Nat.not_lt_zero i)) rfl (by decide)

/-- Claim C3: with max_retries 3 and retry_delay 1, a script answering
503 on attempts 1 and 2 and a valid 200 body on attempt 3 makes
save_note succeed on the third attempt after waits of exactly 1 second
then 2 seconds. -/
theorem save_note_scenario_503_503_success :
    save_note 3 1 "msg" none
        (fun i => if i < 2 then .statusError 503 else .ok true true "created" "note-1") =
      { attempts := 3, waits := [1, 2],
        outcome := .success "created" "note-1" "msg" } := by
  have h1 := save_note_loop_step_retry 1
    (fun i => if i < 2 then .statusError 503 else .ok true true "created" "note-1")
    "msg" 2 0 [] none (.statusError 503) rfl (by omega) (by decide)
  have h2 := save_note_loop_step_retry 1
    (fun i => if i < 2 then .statusError 503 else .ok true true "created" "note-1")
    "msg" 1 1 ([] ++ [1 * 2 ^ 0]) (some (.statusError 503)) (.statusError 503)
    rfl (by omega) (by decide)
  have h3 := save_note_loop_success_step 1
    (fun i => if i < 2 then .statusError 503 else .ok true true "created" "note-1")
    "msg" 0 2 ([] ++ [1 * 2 ^ 0] ++ [1 * 2 ^ 1]) (some (.statusError 503))
    "created" "note-1" rfl
  rw [show save_note 3 1 "msg" none
      (fun i => if i < 2 then .statusError 503 else .ok true true "created" "note-1") =
      save_note_loop 1
        (fun i => if i < 2 then .statusError 503 else .ok true true "created" "note-1")
        "msg" 3 0 [] none from rfl, h1, h2, h3]
  simp [SaveRun.mk.injEq]

/-- Claim C5: when attempts before 0-based index k raise retryable
errors and attempt k succeeds at the transport level but its body lacks
the status field or the note_id field, save_note raises the
invalid-response error immediately: k + 1 attempts, no wait after the
malformed response, whatever budget remains. -/
theorem save_note_malformed_response_fatal
    (mr : Int) (d : ℚ) (mid : String) (cid : Option Int) (s : Nat → AttemptResult)
    (k : Nat) (a b : Bool) (st ni : String) (hk : k < mr.toNat)
    (hpre : ∀ i, i < k → is_retryable_error (s i) = true)
    (hres : s k = .ok a b st ni) (hmiss : (a && b) = false) :
    (save_note mr d mid cid s).attempts = k + 1 ∧
    (save_note mr d mid cid s).waits.length = k ∧
    (save_note mr d mid cid s).outcome = .raised .invalidResponse := by
  obtain ⟨l2, hl2⟩ := save_note_loop_skip d s (format_message_id mid cid)
    k mr.toNat 0 [] none hk (fun i _ h2 => hpre i (by omega))
  obtain ⟨g, hgg⟩ : ∃ g, mr.toNat - k = g + 1 := ⟨mr.toNat - k - 1, by omega⟩
  have hrun : save_note mr d mid cid s =
      { attempts := 0 + k + 1, waits := [] ++ backoff_waits d 0 k,
        outcome := .raised .invalidResponse } := by
    rw [save_note, hl2, hgg]
    exact save_note_loop_malformed d s _ g (0 + k) _ l2 a b st ni
      (by simpa using hres) hmiss
  rw [hrun]
  exact ⟨by simp, by simp [backoff_waits_length], rfl⟩

/-- Witness for C5: a 200 response missing note_id on the first attempt
with budget 3 raises the invalid-response error at once. -/
theorem save_note_malformed_response_fatal_witness :
    (save_note 3 1 "w" none (fun _ => .ok true false "created" "")).attempts = 1 ∧
    (save_note 3 1 "w" none (fun _ => .ok true false "created" "")).waits.length = 0 ∧
    (save_note 3 1 "w" none (fun _ => .ok true false "created" "")).outcome =
      .raised .invalidResponse :=
  save_note_malformed_response_fatal 3 1 "w" none (fun _ => .ok true false "created" "")
    0 true false "created" "" (by decide) (fun i h => absurd h (Nat.not_lt_zero i))
    rfl (by decide)

/-- Claim C9: the wire identifier save_note sends is
format_message_id, which is chat_id underscore message_id when a chat
id is present and the bare message id otherwise, and a successful
save_note echoes exactly this identifier in the message_id field of
its result. -/
theorem save_note_wire_identifier_echo
    (mid : String) (cid : Option Int) (mr : Int) (d : ℚ) (s : Nat → AttemptResult)
    (st ni m : String)
    (h : (save_note mr d mid cid s).outcome = .success st ni m) :
    m = format_message_id mid cid ∧
    (∀ c : Int, format_message_id mid (some c) = toString c ++ "_" ++ mid) ∧
    format_message_id mid none = mid := by
  refine ⟨?_, fun c => rfl, rfl⟩
  exact save_note_loop_success_messageId d s _ mr.toNat 0 [] none st ni m h

/-- Witness for C9: with chat id 7 and message id 42, a successful save
echoes the composite identifier 7_42. -/
theorem save_note_wire_identifier_echo_witness :
    "7_42" = format_message_id "42" (some 7) :=
  (save_note_wire_identifier_echo "42" (some 7) 1 1
    (fun _ => .ok true true "created" "n1") "created" "n1" "7_42" (by decide)).1

/-- Claim C10: constructed with a non-positive max_retries, save_note
runs the loop body zero times, performs no HTTP attempt and no wait,
and falls through to the implicit return None because last_error is
still None, so the caller receives neither a result dictionary nor an
exception. -/
theorem save_note_zero_retries_returns_none
    (mr : Int) (hmr : mr ≤ 0) (d : ℚ) (mid : String) (cid : Option Int)
    (s : Nat → AttemptResult) :
    save_note mr d mid cid s =
      { attempts := 0, waits := [], outcome := .noneReturn } := by
  have h0 : mr.toNat = 0 := by omega
  rw [save_note, h0]
  rfl

/-- Witness for C10 at max_retries 0. -/
theorem save_note_zero_retries_returns_none_witness :
    save_note 0 1 "m" none (fun _ => .ok true true "a" "b") =
      { attempts := 0, waits := [], outcome := .noneReturn } :=
  save_note_zero_retries_returns_none 0 (by decide) 1 "m" none
    (fun _ => .ok true true "a" "b")

/-- Counterexample to claim C4 as stated: at status code 600 the
classifier _is_retryable_error answers false (600 is not a 5xx code),
yet the retry decision save_note actually takes retries it: with budget
2 the loop performs a second attempt on a 600. So the classification
does not agree with the in-loop decision for every status code. -/
theorem status_600_classifier_loop_disagreement :
    is_retryable_error (.statusError 600) = false ∧
    save_note_retry_decision (.statusError 600) = true ∧
    (save_note 2 1 "m" none (fun _ => .statusError 600)).attempts = 2 ∧
    (save_note 2 1 "m" none (fun _ => .statusError 600)).outcome =
      .raised (.apiFailed 600) := by
  decide

/-- Claim C4 amended: _is_retryable_error classifies an HTTP status
error as retryable exactly when 500 <= code < 600 and as fatal on all
of [400,500), while the retry decision taken inside save_note retries
exactly when 500 <= code; the two agree for every status code below
600 (in particular for every standard HTTP code), and with budget 2 a
second attempt happens exactly when the classifier calls the code
retryable, for codes below 600. -/
theorem status_classification_amended (code : Nat) :
    (is_retryable_error (.statusError code) = true ↔ 500 ≤ code ∧ code < 600) ∧
    (400 ≤ code → code < 500 → is_retryable_error (.statusError code) = false) ∧
    (save_note_retry_decision (.statusError code) = true ↔ 500 ≤ code) ∧
    (code < 600 →
      is_retryable_error (.statusError code) = save_note_retry_decision (.statusError code)) ∧
    (code < 600 →
      ((save_note 2 1 "m" none (fun _ => .statusError code)).attempts = 2 ↔
        is_retryable_error (.statusError code) = true)) := by
  refine ⟨?_, ?_, ?_, ?_, ?_⟩
  · simp [is_retryable_error]
  · intro h1 h2
    simp [is_retryable_error]
    omega
  · simp [save_note_retry_decision]
  · intro h6
    have hc : decide (code < 600) = true := by simpa using h6
    simp [is_retryable_error, save_note_retry_decision, hc]
  · intro h6
    by_cases h5 : code < 500
    · have hrw : save_note 2 1 "m" none (fun _ => .statusError code) =
          { attempts := 0 + 1, waits := [],
            outcome := .raised (.apiFailed code) } :=
        save_note_loop_fatal_status 1 (fun _ => .statusError code) "m" 1 0 [] none
          code rfl h5
      rw [hrw]
      simp [is_retryable_error]
      omega
    · have h500 : 500 ≤ code := by omega
      have hd : save_note_retry_decision (.statusError code) = true := by
        simp [save_note_retry_decision]; omega
      have hr : is_retryable_error (.statusError code) = true := by
        simp [is_retryable_error]; omega
      have hstep := save_note_loop_step_retry 1 (fun _ => .statusError code) "m"
        1 0 [] none (.statusError code) rfl (by omega) hd
      have hlast := save_note_loop_last_retryable 1 (fun _ => .statusError code) "m"
        1 ([] ++ [1 * 2 ^ 0]) (some (.statusError code)) (.statusError code) rfl hr
      have hatt : (save_note 2 1 "m" none (fun _ => .statusError code)).attempts = 2 := by
        rw [show save_note 2 1 "m" none (fun _ => .statusError code) =
            save_note_loop 1 (fun _ => .statusError code) "m" 2 0 [] none from rfl,
          hstep, hlast]
      simp [hatt, hr]

/-- Witness for the amended C4 at status 503: classifier and in-loop
decision agree. -/
theorem status_classification_amended_witness :
    is_retryable_error (.statusError 503) = save_note_retry_decision (.statusError 503) :=
  (status_classification_amended 503).2.2.2.1 (by decide)

end ApiAdapterModel

namespace SleepBotModel

theorem countP_ok_of_drained (ok : Entry → Bool) (p : List Entry) :
    (p.filter (fun e => !ok e)).countP ok = 0 := by
  induction p with
  | nil => rfl
  | cons e rest ih =>
      by_cases he : ok e = true <;>
        simp [List.filter_cons, List.countP_cons, he, ih]

theorem filter_drained_idem (ok : Entry → Bool) (p : List Entry) :
    (p.filter (fun e => !ok e)).filter (fun e => !ok e) =
      p.filter (fun e => !ok e) := by
  induction p with
  | nil => rfl
  | cons e rest ih =>
      by_cases he : ok e = true <;>
        simp [List.filter_cons, he, ih]

/-- Claim C6: draining the offline buffer is idempotent. For every
buffer state and every fixed per-entry persistence outcome, a second
run of sync_pending_entries immediately after a first one, with no
intervening enqueue, persists zero records and leaves the pending list
exactly as the first run left it. -/
theorem sync_pending_entries_drain_idempotent (ok : Entry → Bool) (p : List Entry) :
    (sync_pending_entries ok (sync_pending_entries ok p).1).2 = 0 ∧
    (sync_pending_entries ok (sync_pending_entries ok p).1).1 =
      (sync_pending_entries ok p).1 := by
  rw [sync_pending_entries_spec ok p]
  rw [sync_pending_entries_spec ok (p.filter (fun e => !ok e))]
  exact ⟨countP_ok_of_drained ok p, filter_drained_idem ok p⟩

/-- Counterexample to claim C7 as stated: with an empty pending buffer,
a probe that flips availability from false to true is a transition into
the available state, yet check_backend_health triggers zero drains, not
exactly one, because the drain call is guarded by the pending list
being non-empty (sleep_bot.py line 664). -/
theorem health_check_transition_without_drain :
    (check_backend_health (fun _ => true) true
        { pending_entries := [], last_known_entries := [],
          is_backend_available := false }).1.is_backend_available = true ∧
    (check_backend_health (fun _ => true) true
        { pending_entries := [], last_known_entries := [],
          is_backend_available := false }).2 = 0 := by
  decide

/-- Claim C7 amended: check_backend_health never drains when the probe
repeats the stored availability value; on a transition into available
it triggers exactly one drain when the pending buffer is non-empty and
zero drains when the buffer is empty; when every pending entry is
accepted by the remote, a transition into available empties the
pending buffer; and no step ever triggers more than one drain. -/
theorem health_check_drain_amended (ok : Entry → Bool) (probe : Bool)
    (s : BotMemoryCache) :
    (probe = s.is_backend_available → check_backend_health ok probe s = (s, 0)) ∧
    (probe = true → s.is_backend_available = false → s.pending_entries ≠ [] →
      (check_backend_health ok probe s).2 = 1 ∧
      (check_backend_health ok probe s).1.pending_entries =
        s.pending_entries.filter (fun e => !ok e)) ∧
    (probe = true → s.is_backend_available = false → s.pending_entries = [] →
      (check_backend_health ok probe s).2 = 0) ∧
    ((∀ e ∈ s.pending_entries, ok e = true) → probe = true →
      s.is_backend_available = false →
      (check_backend_health ok probe s).1.pending_entries = []) ∧
    (check_backend_health ok probe s).2 ≤ 1 := by
  refine ⟨?_, ?_, ?_, ?_, ?_⟩
  · intro h
    simp [check_backend_health, h]
  · intro hp hf hne
    have hne2 : s.pending_entries.isEmpty = false := by
      cases h2 : s.pending_entries with
      | nil => exact absurd h2 hne
      | cons a t => rfl
    constructor <;>
      simp [check_backend_health, hp, hf, hne2, sync_pending_entries_spec]
  · intro hp hf he
    simp [check_backend_health, hp, hf, he]
  · intro hall hp hf
    cases hpe : s.pending_entries with
    | nil => simp [check_backend_health, hp, hf, hpe]
    | cons a t =>
        have hne2 : s.pending_entries.isEmpty = false := by rw [hpe]; rfl
        have hfilter : s.pending_entries.filter (fun e => !ok e) = [] := by
          rw [List.filter_eq_nil_iff]
          intro e he
          simp [hall e he]
        simp [check_backend_health, hp, hf, hne2, sync_pending_entries_spec,
          hfilter]
  · unfold check_backend_health
    split_ifs <;> simp

/-- Witness for the amended C7, the spec scenario: an entry enqueued
while the backend is unavailable, followed by a successful probe with a
remote accepting everything, triggers exactly one drain and leaves
zero pending entries. -/
theorem health_check_drain_amended_witness :
    (check_backend_health (fun _ => true) true
        (add_pending_entry
          { pending_entries := [], last_known_entries := [],
            is_backend_available := false } sampleEntry)).2 = 1 ∧
    (check_backend_health (fun _ => true) true
        (add_pending_entry
          { pending_entries := [], last_known_entries := [],
            is_backend_available := false } sampleEntry)).1.pending_entries = [] := by
  have h := health_check_drain_amended (fun _ => true) true
    (add_pending_entry
      { pending_entries := [], last_known_entries := [],
        is_backend_available := false } sampleEntry)
  exact ⟨(h.2.1 rfl rfl (by decide)).1, h.2.2.2.1 (fun e _ => rfl) rfl rfl⟩

/-- Claim C8: the combined history view equals the concatenation of
pending and last-known entries, stably sorted by timestamp in
descending order, truncated to the first limit elements; it is sorted
descending, its length is the minimum of limit and the total number of
entries, and since get_combined_history is a pure function of the
cache, computing it leaves both underlying lists unchanged. -/
theorem get_combined_history_sorted_desc_truncated (s : BotMemoryCache) (limit : Nat) :
    ∃ full : List Entry,
      full.Perm (s.pending_entries ++ s.last_known_entries) ∧
      List.Sorted entry_desc full ∧
      get_combined_history s limit = full.take limit ∧
      (get_combined_history s limit).length =
        min limit (s.pending_entries.length + s.last_known_entries.length) ∧
      List.Sorted entry_desc (get_combined_history s limit) := by
  refine ⟨List.insertionSort entry_desc (s.pending_entries ++ s.last_known_entries),
    List.perm_insertionSort _ _, List.sorted_insertionSort _ _, rfl, ?_, ?_⟩
  · rw [get_combined_history, List.length_take,
      (List.perm_insertionSort entry_desc _).length_eq, List.length_append]
  · exact List.Pairwise.sublist (List.take_sublist _ _)
      (List.sorted_insertionSort entry_desc _)

end SleepBotModel
